import Mathlib

/-!
Verification of the `mrvaserver` bootstrap (`main.go`, two near-duplicate
`main` functions) and of the spec-level state-store / job-status contracts.

The two Go `main` functions are embedded as pure Lean functions from the
parsed flag values (`Invocation`) and the outcomes of the external calls
(`Env`: `os.Executable`, backend initializers) to a trace of observable
events plus a final `Outcome`.  Every event corresponds to a statement of
the source, in source order.
-/

namespace MrvaServer

/-- Log levels accepted by the `--loglevel` switch in both bootstraps. -/
inductive LogLevel
  | debug | info | warn | error
  deriving DecidableEq, Repr

/-- The `--loglevel` switch (`main.go` lines 53-65 and 203-215): the four
recognized strings map to a level; anything else falls to the `default`
branch. -/
def parseLogLevel (s : String) : Option LogLevel :=
  if s = "debug" then some LogLevel.debug
  else if s = "info" then some LogLevel.info
  else if s = "warn" then some LogLevel.warn
  else if s = "error" then some LogLevel.error
  else none

/-- Queue implementations that the bootstraps can construct:
`queue.NewQueueSingle(size)` (in-process channel) or the RabbitMQ client
from `deploy.InitRabbitMQ`. -/
inductive QueueImpl
  | queueSingle (size : Nat)
  | rabbitMQ
  deriving DecidableEq, Repr

/-- State-store implementations: `state.NewLocalState(startingId)` (the
in-memory store) or `state.NewPGState()` (the persistent Postgres store). -/
inductive StateImpl
  | localState (startingId : Nat)
  | pgState
  deriving DecidableEq, Repr

/-- Artifact-store implementations: `artifactstore.NewInMemoryArtifactStore()`
or the MinIO client from `deploy.InitMinIOArtifactStore`. -/
inductive ArtifactImpl
  | inMemory
  | minio
  deriving DecidableEq, Repr

/-- CodeQL database-store implementations:
`qldbstore.NewLocalFilesystemCodeQLDatabaseStore(root)`,
`deploy.InitMinIOCodeQLDatabaseStore` or `deploy.InitHEPCDatabaseStore`. -/
inductive DBStoreImpl
  | localFilesystem (root : String)
  | minioDB
  | hepc
  deriving DecidableEq, Repr

/-- The `server.Visibles` struct passed to `server.NewCommanderSingle`. -/
structure Visibles where
  queue : QueueImpl
  state : StateImpl
  artifacts : ArtifactImpl
  codeQLDBStore : DBStoreImpl
  deriving DecidableEq, Repr

/-- Observable events of a bootstrap run, one per effectful statement of
`main.go`, in source order. -/
inductive Event
  | printUsage
  | logInvalidLogLevel (s : String)
  | setLogLevel (l : LogLevel)
  | warnNoDBPath
  | logExecPathError
  | logDefaultDBPath (p : String)
  | loadConfig (file : String)
  | printSummary
  | installSignalHandlers
  | queueInitDone
  | artifactsInitDone
  | databasesInitDone
  | logInitError (component : String)
  | newCommander (v : Visibles)
  | createCancelContext
  | startWorkers (withCancelToken : Bool) (numWorkers : Nat)
  | waitSignal
  | cancelCalled
  | wgWait
  | logStandaloneDeprecated
  | logInvalidMode
  deriving DecidableEq, Repr

/-- How a bootstrap run ends: `flag.Usage` + `return` on `--help`,
`os.Exit(code)`, or falling off the end of `main` (the
"Server shutdown complete" log). -/
inductive Outcome
  | helpShown
  | exitWith (code : Nat)
  | shutdownComplete
  deriving DecidableEq, Repr

/-- The parsed command-line flags of either bootstrap. -/
structure Invocation where
  help : Bool
  logLevel : String
  mode : String
  dbPath : String
  deriving DecidableEq, Repr

/-- The `mcc.LoadConfig` result, of which the bootstraps read only
`config.Storage.StartingID`. -/
structure Config where
  startingID : Nat
  deriving DecidableEq, Repr

/-- Outcomes of the external calls a bootstrap makes: `os.Executable`,
`filepath.Dir`, `mcc.LoadConfig`, and the container-mode backend
initializers (`true` = the initializer returned without error). -/
structure Env where
  execPath : Except Unit String
  dir : String → String
  config : Config
  rabbitInitOK : Bool
  minioArtifactsInitOK : Bool
  minioDatabasesInitOK : Bool
  hepcDatabasesInitOK : Bool

/-- `main.go` lines 67-79 (identical at lines 217-229 of the second
bootstrap): when `--mode=standalone` and `--dbpath` is empty, resolve the
executable path (exiting on failure) and default the root to
`filepath.Dir(execPath) + "/codeql/dbs/"`; otherwise leave `--dbpath`
unchanged.  `Except` error carries the events logged before `os.Exit(1)`;
success carries the events plus the (possibly defaulted) root. -/
def processDBPath (env : Env) (mode dbPath : String) :
    Except (List Event) (List Event × String) :=
  if mode = "standalone" ∧ dbPath = "" then
    match env.execPath with
    | Except.error _ => Except.error [Event.warnNoDBPath, Event.logExecPathError]
    | Except.ok p =>
        let root := env.dir p ++ "/codeql/dbs/"
        Except.ok ([Event.warnNoDBPath, Event.logDefaultDBPath root], root)
  else Except.ok ([], dbPath)

/-- The `--mode` switch of the first bootstrap (`main.go` lines 94-155):
standalone assembles the four single-process backends, creates the
commander, then a cancellable context, starts two workers with it, waits
for the signal, cancels and waits on the worker wait group; container
initializes RabbitMQ, MinIO artifacts and MinIO databases (exiting on any
failure), creates the commander over those with the in-memory local state,
and waits for the signal; anything else logs and exits. -/
def runMode1 (env : Env) (mode dbPathRoot : String) : List Event × Outcome :=
  if mode = "standalone" then
    let v : Visibles :=
      { queue := QueueImpl.queueSingle 2
        state := StateImpl.localState env.config.startingID
        artifacts := ArtifactImpl.inMemory
        codeQLDBStore := DBStoreImpl.localFilesystem dbPathRoot }
    ([Event.newCommander v, Event.createCancelContext,
      Event.startWorkers true 2, Event.waitSignal, Event.cancelCalled,
      Event.wgWait], Outcome.shutdownComplete)
  else if mode = "container" then
    if ¬ env.rabbitInitOK then
      ([Event.logInitError "RabbitMQ"], Outcome.exitWith 1)
    else if ¬ env.minioArtifactsInitOK then
      ([Event.queueInitDone, Event.logInitError "artifact store"],
       Outcome.exitWith 1)
    else if ¬ env.minioDatabasesInitOK then
      ([Event.queueInitDone, Event.artifactsInitDone,
        Event.logInitError "database store"], Outcome.exitWith 1)
    else
      let v : Visibles :=
        { queue := QueueImpl.rabbitMQ
          state := StateImpl.localState env.config.startingID
          artifacts := ArtifactImpl.minio
          codeQLDBStore := DBStoreImpl.minioDB }
      ([Event.queueInitDone, Event.artifactsInitDone, Event.databasesInitDone,
        Event.newCommander v, Event.waitSignal], Outcome.shutdownComplete)
  else
    ([Event.logInvalidMode], Outcome.exitWith 1)

/-- The `--mode` switch of the second bootstrap (`main.go` lines 244-290):
standalone is deprecated and exits immediately; container initializes
RabbitMQ, MinIO artifacts and the HEPC database store (exiting on any
failure), creates the commander over those with the Postgres state store,
and waits for the signal; anything else logs and exits. -/
def runMode2 (env : Env) (mode : String) : List Event × Outcome :=
  if mode = "standalone" then
    ([Event.logStandaloneDeprecated], Outcome.exitWith 1)
  else if mode = "container" then
    if ¬ env.rabbitInitOK then
      ([Event.logInitError "RabbitMQ"], Outcome.exitWith 1)
    else if ¬ env.minioArtifactsInitOK then
      ([Event.queueInitDone, Event.logInitError "artifact store"],
       Outcome.exitWith 1)
    else if ¬ env.hepcDatabasesInitOK then
      ([Event.queueInitDone, Event.artifactsInitDone,
        Event.logInitError "database store"], Outcome.exitWith 1)
    else
      let v : Visibles :=
        { queue := QueueImpl.rabbitMQ
          state := StateImpl.pgState
          artifacts := ArtifactImpl.minio
          codeQLDBStore := DBStoreImpl.hepc }
      ([Event.queueInitDone, Event.artifactsInitDone, Event.databasesInitDone,
        Event.newCommander v, Event.waitSignal], Outcome.shutdownComplete)
  else
    ([Event.logInvalidMode], Outcome.exitWith 1)

/-- The first bootstrap's `main` (`main.go` lines 28-158): help flag, the
log-level switch, the database-root defaulting, `mcc.LoadConfig`, the
configuration summary, `signal.Notify`, then the mode switch. -/
def runMain1 (inv : Invocation) (env : Env) : List Event × Outcome :=
  if inv.help then ([Event.printUsage], Outcome.helpShown)
  else
    match parseLogLevel inv.logLevel with
    | none => ([Event.logInvalidLogLevel inv.logLevel], Outcome.exitWith 1)
    | some lvl =>
        match processDBPath env inv.mode inv.dbPath with
        | Except.error evs =>
            (Event.setLogLevel lvl :: evs, Outcome.exitWith 1)
        | Except.ok (evs, dbPathRoot) =>
            let pre := Event.setLogLevel lvl :: evs
              ++ [Event.loadConfig "mcconfig.toml", Event.printSummary,
                  Event.installSignalHandlers]
            let res := runMode1 env inv.mode dbPathRoot
            (pre ++ res.1, res.2)

/-- The second bootstrap's `main` (`main.go` lines 178-293): identical up
front except that `mcc.LoadConfig` is commented out, then its own mode
switch. -/
def runMain2 (inv : Invocation) (env : Env) : List Event × Outcome :=
  if inv.help then ([Event.printUsage], Outcome.helpShown)
  else
    match parseLogLevel inv.logLevel with
    | none => ([Event.logInvalidLogLevel inv.logLevel], Outcome.exitWith 1)
    | some lvl =>
        match processDBPath env inv.mode inv.dbPath with
        | Except.error evs =>
            (Event.setLogLevel lvl :: evs, Outcome.exitWith 1)
        | Except.ok (evs, _) =>
            let pre := Event.setLogLevel lvl :: evs
              ++ [Event.printSummary, Event.installSignalHandlers]
            let res := runMode2 env inv.mode
            (pre ++ res.1, res.2)

/-- The usage text of the `--mode` flag, identical in both bootstraps
(`main.go` lines 32 and 182). -/
def modeFlagUsage : String := "Set mode: standalone, container, cluster"

/-- Phases of the first bootstrap's main goroutine in standalone mode
after the workers are started (`main.go` lines 115-119): blocked on
`<-sigChan`, then past `cancel()` and blocked on `wg.Wait()`, then done
(the "Agent shutdown complete" log). -/
inductive MainPhase
  | waitingSignal
  | signalled
  | waitingWG
  | done
  deriving DecidableEq, Repr

/-- Joint state of the main goroutine and the worker pool in standalone
mode: the main goroutine's phase, whether `cancel()` has been called, and
how many worker units have not yet exited.  The worker count and the
wait-group behaviour are modelled from the spec: `pkg/agent` and
`sync.WaitGroup` are not part of the available source. -/
structure AgentState where
  phase : MainPhase
  cancelled : Bool
  running : Nat
  deriving DecidableEq, Repr

/-- Modelled from the spec: interleaved small steps of the standalone
shutdown.  `pkg/agent.StartAndMonitorWorkers` and `sync.WaitGroup` are not
under the available source; the spec says the supervisor's shutdown call
returns only after every unit has exited, which is `sync.WaitGroup`
semantics: `wg.Wait()` returns only when the counter of running units is
zero.  The main-goroutine steps mirror `main.go` lines 115-119 in order:
receive the signal, call `cancel()` and block on `wg.Wait()`, return from
`wg.Wait()` once no unit is running.  A worker unit may exit at any time
while some are running. -/
inductive AgentStep : AgentState → AgentState → Prop
  | recvSignal (s : AgentState) (h : s.phase = MainPhase.waitingSignal) :
      AgentStep s { s with phase := MainPhase.signalled }
  | callCancel (s : AgentState) (h : s.phase = MainPhase.signalled) :
      AgentStep s { s with phase := MainPhase.waitingWG, cancelled := true }
  | workerExit (s : AgentState) (h : 0 < s.running) :
      AgentStep s { s with running := s.running - 1 }
  | wgWaitReturns (s : AgentState) (h : s.phase = MainPhase.waitingWG)
      (h0 : s.running = 0) :
      AgentStep s { s with phase := MainPhase.done }

/-- The standalone bootstrap's state right after `go
agent.StartAndMonitorWorkers(...)`: blocked on the signal channel, not yet
cancelled, `n` worker units running. -/
def agentInit (n : Nat) : AgentState :=
  { phase := MainPhase.waitingSignal, cancelled := false, running := n }

/-- WorkItem lifecycle states (spec §3, §4.3), with the result artifact
key carried on success and the error summary on failure. -/
inductive WIStatus
  | enqueued
  | claimed
  | executing
  | succeeded (result : String)
  | failed (reason : String)
  deriving DecidableEq, Repr

/-- A state store's WorkItem table: identifier to status, `none` for an
unknown identifier. -/
def StoreMap : Type := Nat → Option WIStatus

/-- Store errors relevant to completion (spec §7 error taxonomy). -/
inductive StoreError
  | notFound
  | conflict
  deriving DecidableEq, Repr

/-- Whether a WorkItem state is terminal (spec §4.3). -/
def WIStatus.isTerminal : WIStatus → Bool
  | WIStatus.succeeded _ => true
  | WIStatus.failed _ => true
  | _ => false

/-- Modelled from the spec: `CompleteWorkItem(id, result)` of the state
store (spec §4.2); the state-store package is not under the available
source.  The spec: terminal transition to Succeeded; idempotent — a second
call with the same result is a no-op; a differing second result is
rejected as `Conflict`; terminal Job states are immutable, so completion
of a `Failed` item is likewise a `Conflict`. -/
def CompleteWorkItem (st : StoreMap) (id : Nat) (result : String) :
    Except StoreError StoreMap :=
  match st id with
  | none => Except.error StoreError.notFound
  | some s =>
      if s = WIStatus.succeeded result then Except.ok st
      else if s.isTerminal then Except.error StoreError.conflict
      else Except.ok
        fun j => if j = id then some (WIStatus.succeeded result) else st j

/-- Whether a WorkItem has started, i.e. left `Enqueued` (spec §4.3:
Job status `Submitted` means no items started). -/
def WIStatus.started : WIStatus → Bool
  | WIStatus.enqueued => false
  | _ => true

/-- Whether a WorkItem succeeded. -/
def WIStatus.isSucceeded : WIStatus → Bool
  | WIStatus.succeeded _ => true
  | _ => false

/-- Whether a WorkItem failed. -/
def WIStatus.isFailed : WIStatus → Bool
  | WIStatus.failed _ => true
  | _ => false

/-- Derived Job status values (spec §4.3). -/
inductive JobStatus
  | submitted
  | running
  | completed
  | partiallyFailed
  | failedAll
  deriving DecidableEq, Repr

/-- Modelled from the spec: the derived Job status as a pure function of
the Job's WorkItem states (spec §4.3); the server package that derives it
is not under the available source.  Cases in the spec's order of
priority: Submitted (no items started), Running (≥1 item non-terminal),
Completed (all Succeeded), Failed (all Failed), else PartiallyFailed. -/
def jobStatus (items : List WIStatus) : JobStatus :=
  if items.all fun s => ¬ s.started then JobStatus.submitted
  else if items.any fun s => ¬ s.isTerminal then JobStatus.running
  else if items.all fun s => s.isSucceeded then JobStatus.completed
  else if items.all fun s => s.isFailed then JobStatus.failedAll
  else JobStatus.partiallyFailed

/-- The invalid-mode error message, identical in both bootstraps
(`main.go` lines 153 and 288). -/
def invalidModeMsg : String :=
  "Invalid value for --mode. Allowed values are: standalone, container, cluster"

/-- An environment in which every container-mode backend initializer
fails. -/
def envAllFail : Env :=
  { execPath := Except.ok "/usr/local/bin/mrvaserver"
    dir := fun _ => "/usr/local/bin"
    config := { startingID := 1 }
    rabbitInitOK := false
    minioArtifactsInitOK := false
    minioDatabasesInitOK := false
    hepcDatabasesInitOK := false }

/-- An environment in which every external call succeeds. -/
def envAllOK : Env :=
  { execPath := Except.ok "/usr/local/bin/mrvaserver"
    dir := fun _ => "/usr/local/bin"
    config := { startingID := 1 }
    rabbitInitOK := true
    minioArtifactsInitOK := true
    minioDatabasesInitOK := true
    hepcDatabasesInitOK := true }

/-- A container-mode invocation with a valid log level and no help flag. -/
def invContainer : Invocation :=
  { help := false, logLevel := "info", mode := "container", dbPath := "" }

/-- A standalone invocation with an explicit database path. -/
def invStandalone : Invocation :=
  { help := false, logLevel := "info", mode := "standalone",
    dbPath := "/data/dbs" }

/-- A standalone invocation with an empty database path. -/
def invStandaloneNoDB : Invocation :=
  { help := false, logLevel := "info", mode := "standalone", dbPath := "" }

/-- A cluster-mode invocation with a valid log level and no help flag. -/
def invCluster : Invocation :=
  { help := false, logLevel := "info", mode := "cluster", dbPath := "" }

/-- A cluster-mode invocation with the help flag set. -/
def invHelpCluster : Invocation :=
  { help := true, logLevel := "info", mode := "cluster", dbPath := "" }

/-- When the mode is not `standalone`, the database-root block leaves the
path unchanged and logs nothing. -/
theorem processDBPath_not_standalone (env : Env) (mode p : String)
    (h : mode ≠ "standalone") : processDBPath env mode p = Except.ok ([], p) := by
  simp [processDBPath, h]

/-- The events emitted by a successful database-root block are either none
or the no-path warning followed by the default-path log. -/
theorem processDBPath_ok_events (env : Env) (mode p : String) (evs : List Event)
    (root : String) (h : processDBPath env mode p = Except.ok (evs, root)) :
    evs = [] ∨ ∃ r, evs = [Event.warnNoDBPath, Event.logDefaultDBPath r] := by
  unfold processDBPath at h
  by_cases hc : mode = "standalone" ∧ p = ""
  · rw [if_pos hc] at h
    cases hx : env.execPath with
    | error e => rw [hx] at h; cases h
    | ok q =>
        rw [hx] at h
        simp only [Except.ok.injEq, Prod.mk.injEq] at h
        exact Or.inr ⟨env.dir q ++ "/codeql/dbs/", h.1.symm⟩
  · rw [if_neg hc] at h
    simp only [Except.ok.injEq, Prod.mk.injEq] at h
    exact Or.inl h.1.symm

/-- Unfolding of the first bootstrap past the help flag, the log-level
switch and the database-root block. -/
theorem runMain1_eq (inv : Invocation) (env : Env) (lvl : LogLevel)
    (evs : List Event) (root : String)
    (hh : inv.help = false) (hl : parseLogLevel inv.logLevel = some lvl)
    (hdb : processDBPath env inv.mode inv.dbPath = Except.ok (evs, root)) :
    runMain1 inv env =
      (Event.setLogLevel lvl :: evs
         ++ [Event.loadConfig "mcconfig.toml", Event.printSummary,
             Event.installSignalHandlers] ++ (runMode1 env inv.mode root).1,
       (runMode1 env inv.mode root).2) := by
  simp [runMain1, hh, hl, hdb]

/-- Unfolding of the second bootstrap past the help flag, the log-level
switch and the database-root block. -/
theorem runMain2_eq (inv : Invocation) (env : Env) (lvl : LogLevel)
    (evs : List Event) (root : String)
    (hh : inv.help = false) (hl : parseLogLevel inv.logLevel = some lvl)
    (hdb : processDBPath env inv.mode inv.dbPath = Except.ok (evs, root)) :
    runMain2 inv env =
      (Event.setLogLevel lvl :: evs
         ++ [Event.printSummary, Event.installSignalHandlers]
         ++ (runMode2 env inv.mode).1,
       (runMode2 env inv.mode).2) := by
  simp [runMain2, hh, hl, hdb]

/-- C9 counterexample: the invocation `--help --loglevel=junk` carries a
log-level value outside {debug, info, warn, error}, yet both bootstraps
handle the help flag first and return normally (exit status 0) without
printing the invalid-verbosity message, so the claim's "every invocation"
fails. -/
theorem c9_help_flag_counterexample :
    parseLogLevel "junk" = none ∧
    runMain1 { help := true, logLevel := "junk", mode := "standalone",
               dbPath := "" } envAllOK =
      ([Event.printUsage], Outcome.helpShown) ∧
    runMain2 { help := true, logLevel := "junk", mode := "standalone",
               dbPath := "" } envAllOK =
      ([Event.printUsage], Outcome.helpShown) ∧
    Outcome.helpShown ≠ Outcome.exitWith 1 := by
  refine ⟨by decide, rfl, rfl, by decide⟩

/-- C9 (amended): for every invocation without the help flag whose
`--loglevel` value is outside {debug, info, warn, error}, both bootstraps
print the invalid-verbosity message and exit with status 1, the whole run
consisting of that one event — so before loading configuration, installing
signal handlers, or assembling any backend. -/
theorem c9_invalid_loglevel_exits (inv : Invocation) (env : Env)
    (hh : inv.help = false)
    (hl : inv.logLevel ∉ ["debug", "info", "warn", "error"]) :
    runMain1 inv env =
      ([Event.logInvalidLogLevel inv.logLevel], Outcome.exitWith 1) ∧
    runMain2 inv env =
      ([Event.logInvalidLogLevel inv.logLevel], Outcome.exitWith 1) := by
  simp only [List.mem_cons, List.mem_singleton, not_or] at hl
  obtain ⟨h1, h2, h3, h4, _⟩ := hl
  have hp : parseLogLevel inv.logLevel = none := by
    simp [parseLogLevel, h1, h2, h3, h4]
  exact ⟨by simp [runMain1, hh, hp], by simp [runMain2, hh, hp]⟩

/-- C9 witness: the amended theorem applied to `--loglevel=junk` without
help. -/
theorem c9_invalid_loglevel_exits_witness :
    ({ help := false, logLevel := "junk", mode := "standalone",
       dbPath := "" } : Invocation).help = false ∧
    "junk" ∉ ["debug", "info", "warn", "error"] ∧
    runMain1 { help := false, logLevel := "junk", mode := "standalone",
               dbPath := "" } envAllOK =
      ([Event.logInvalidLogLevel "junk"], Outcome.exitWith 1) :=
  ⟨rfl, by decide,
    (c9_invalid_loglevel_exits
      { help := false, logLevel := "junk", mode := "standalone", dbPath := "" }
      envAllOK rfl (by decide)).1⟩

/-- C7 counterexample: the invocation `--help --mode=cluster` carries
`--mode=cluster`, yet both bootstraps handle the help flag first and
return normally (exit status 0) without reaching the mode switch, so the
claim's "for every invocation with --mode=cluster, either bootstrap exits
with status 1" fails. -/
theorem c7_help_cluster_counterexample :
    invHelpCluster.mode = "cluster" ∧
    runMain1 invHelpCluster envAllOK = ([Event.printUsage], Outcome.helpShown) ∧
    runMain2 invHelpCluster envAllOK = ([Event.printUsage], Outcome.helpShown) ∧
    Outcome.helpShown ≠ Outcome.exitWith 1 :=
  ⟨rfl, rfl, rfl, by decide⟩

/-- C7 (amended): `cluster` appears in the `--mode` usage text and in the
invalid-mode error message of both bootstraps but is not implemented: for
every invocation without the help flag and with `--mode=cluster`, each
bootstrap exits with status 1 without initializing any backend, creating a
commander, or starting workers — through the invalid-verbosity exit when
the log level is invalid, and otherwise through the mode switch's default
branch, which logs the invalid-mode message; with the help flag set, the
usage text is printed and the process returns normally before the mode
switch. -/
theorem c7_cluster_unimplemented (inv : Invocation) (env : Env)
    (hh : inv.help = false) (hm : inv.mode = "cluster") :
    (runMain1 inv env).2 = Outcome.exitWith 1 ∧
    (runMain2 inv env).2 = Outcome.exitWith 1 ∧
    (∀ v, Event.newCommander v ∉ (runMain1 inv env).1) ∧
    (∀ v, Event.newCommander v ∉ (runMain2 inv env).1) ∧
    Event.queueInitDone ∉ (runMain1 inv env).1 ∧
    Event.queueInitDone ∉ (runMain2 inv env).1 ∧
    Event.artifactsInitDone ∉ (runMain1 inv env).1 ∧
    Event.artifactsInitDone ∉ (runMain2 inv env).1 ∧
    Event.databasesInitDone ∉ (runMain1 inv env).1 ∧
    Event.databasesInitDone ∉ (runMain2 inv env).1 ∧
    (∀ b n, Event.startWorkers b n ∉ (runMain1 inv env).1) ∧
    (∀ b n, Event.startWorkers b n ∉ (runMain2 inv env).1) ∧
    (∀ lvl, parseLogLevel inv.logLevel = some lvl →
      Event.logInvalidMode ∈ (runMain1 inv env).1 ∧
      Event.logInvalidMode ∈ (runMain2 inv env).1) ∧
    (∃ pre post, modeFlagUsage = pre ++ "cluster" ++ post) ∧
    (∃ pre post, invalidModeMsg = pre ++ "cluster" ++ post) := by
  cases hl : parseLogLevel inv.logLevel with
  | none =>
      have h1 : runMain1 inv env =
          ([Event.logInvalidLogLevel inv.logLevel], Outcome.exitWith 1) := by
        simp [runMain1, hh, hl]
      have h2 : runMain2 inv env =
          ([Event.logInvalidLogLevel inv.logLevel], Outcome.exitWith 1) := by
        simp [runMain2, hh, hl]
      rw [h1, h2]
      refine ⟨rfl, rfl, ?_, ?_, ?_, ?_, ?_, ?_, ?_, ?_, ?_, ?_,
        fun lvl hlvl => Option.noConfusion hlvl,
        ⟨"Set mode: standalone, container, ", "", rfl⟩,
        ⟨"Invalid value for --mode. Allowed values are: standalone, container, ",
          "", rfl⟩⟩ <;> simp
  | some lvl =>
      have hdb : processDBPath env inv.mode inv.dbPath =
          Except.ok ([], inv.dbPath) :=
        processDBPath_not_standalone env inv.mode inv.dbPath
          (by rw [hm]; decide)
      rw [runMain1_eq inv env lvl [] inv.dbPath hh hl hdb,
          runMain2_eq inv env lvl [] inv.dbPath hh hl hdb, hm]
      refine ⟨rfl, rfl, ?_, ?_, ?_, ?_, ?_, ?_, ?_, ?_, ?_, ?_,
        fun lvl2 _ => ⟨by simp [runMode1], by simp [runMode2]⟩,
        ⟨"Set mode: standalone, container, ", "", rfl⟩,
        ⟨"Invalid value for --mode. Allowed values are: standalone, container, ",
          "", rfl⟩⟩ <;> simp [runMode1, runMode2]

/-- C7 witness: the amended theorem applied to `--mode=cluster` without
the help flag. -/
theorem c7_cluster_unimplemented_witness :
    invCluster.help = false ∧ invCluster.mode = "cluster" ∧
    (runMain1 invCluster envAllOK).2 = Outcome.exitWith 1 :=
  ⟨rfl, rfl, (c7_cluster_unimplemented invCluster envAllOK rfl rfl).1⟩

/-- C1: in container mode, if any required backend initializer fails
(message queue, artifact store, or database store — MinIO databases in the
first bootstrap, HEPC databases in the second), the bootstrap logs an
initialization error and exits with status 1 without ever creating the
commander, so no job submissions are accepted and there is no
degraded-but-running mode. -/
theorem c1_container_init_failure_exits (inv : Invocation) (env : Env)
    (lvl : LogLevel) (hh : inv.help = false)
    (hl : parseLogLevel inv.logLevel = some lvl)
    (hm : inv.mode = "container")
    (hf1 : env.rabbitInitOK = false ∨ env.minioArtifactsInitOK = false ∨
      env.minioDatabasesInitOK = false)
    (hf2 : env.rabbitInitOK = false ∨ env.minioArtifactsInitOK = false ∨
      env.hepcDatabasesInitOK = false) :
    ((runMain1 inv env).2 = Outcome.exitWith 1 ∧
      (∃ c, Event.logInitError c ∈ (runMain1 inv env).1) ∧
      (∀ v, Event.newCommander v ∉ (runMain1 inv env).1)) ∧
    ((runMain2 inv env).2 = Outcome.exitWith 1 ∧
      (∃ c, Event.logInitError c ∈ (runMain2 inv env).1) ∧
      (∀ v, Event.newCommander v ∉ (runMain2 inv env).1)) := by
  have hdb : processDBPath env inv.mode inv.dbPath =
      Except.ok ([], inv.dbPath) :=
    processDBPath_not_standalone env inv.mode inv.dbPath (by rw [hm]; decide)
  rw [runMain1_eq inv env lvl [] inv.dbPath hh hl hdb,
      runMain2_eq inv env lvl [] inv.dbPath hh hl hdb, hm]
  cases hr : env.rabbitInitOK <;> cases ha : env.minioArtifactsInitOK <;>
    cases hd1 : env.minioDatabasesInitOK <;>
    cases hd2 : env.hepcDatabasesInitOK <;>
    simp_all [runMode1, runMode2]

/-- C1 witness: the theorem applied to a container invocation whose three
backend initializers all fail. -/
theorem c1_container_init_failure_exits_witness :
    invContainer.help = false ∧
    parseLogLevel invContainer.logLevel = some LogLevel.info ∧
    invContainer.mode = "container" ∧
    envAllFail.rabbitInitOK = false ∧
    (runMain1 invContainer envAllFail).2 = Outcome.exitWith 1 :=
  ⟨rfl, by decide, rfl, rfl,
    (c1_container_init_failure_exits invContainer envAllFail LogLevel.info
      rfl (by decide) rfl (Or.inl rfl) (Or.inl rfl)).1.1⟩

/-- C3 counterexample: a container-mode startup of the first bootstrap
(all initializers succeeding) hands the commander a `State` field built by
`state.NewLocalState` — the in-memory store — which is not the persistent
`state.NewPGState` backend, so "for every container-mode startup the
commander's State is a persistent store" fails. -/
theorem c3_first_bootstrap_inmemory_counterexample :
    Event.newCommander
        { queue := QueueImpl.rabbitMQ, state := StateImpl.localState 1,
          artifacts := ArtifactImpl.minio,
          codeQLDBStore := DBStoreImpl.minioDB }
      ∈ (runMain1 invContainer envAllOK).1 ∧
    StateImpl.localState 1 ≠ StateImpl.pgState ∧
    (∀ v, Event.newCommander v ∈ (runMain1 invContainer envAllOK).1 →
      v.state = StateImpl.localState 1) := by
  refine ⟨by decide, by decide, ?_⟩
  intro v hv
  have : (runMain1 invContainer envAllOK).1 =
      [Event.setLogLevel LogLevel.info, Event.loadConfig "mcconfig.toml",
       Event.printSummary, Event.installSignalHandlers, Event.queueInitDone,
       Event.artifactsInitDone, Event.databasesInitDone,
       Event.newCommander
         { queue := QueueImpl.rabbitMQ, state := StateImpl.localState 1,
           artifacts := ArtifactImpl.minio,
           codeQLDBStore := DBStoreImpl.minioDB },
       Event.waitSignal] := by decide
  rw [this] at hv
  simp only [List.mem_cons, List.not_mem_nil, or_false] at hv
  rcases hv with h | h | h | h | h | h | h | h | h
  all_goals cases h
  rfl

/-- C3 (amended): with every initializer succeeding, the first bootstrap's
container mode hands the commander the in-memory local state (the same
`NewLocalState` backend its standalone mode uses), while only the second
bootstrap's container mode supplies the persistent Postgres state store;
in the second bootstrap every commander created in container mode carries
the persistent store. -/
theorem c3_container_state_backends (inv : Invocation) (env : Env)
    (lvl : LogLevel) (hh : inv.help = false)
    (hl : parseLogLevel inv.logLevel = some lvl)
    (hm : inv.mode = "container")
    (h1 : env.rabbitInitOK = true) (h2 : env.minioArtifactsInitOK = true)
    (h3 : env.minioDatabasesInitOK = true)
    (h4 : env.hepcDatabasesInitOK = true) :
    Event.newCommander
        { queue := QueueImpl.rabbitMQ,
          state := StateImpl.localState env.config.startingID,
          artifacts := ArtifactImpl.minio,
          codeQLDBStore := DBStoreImpl.minioDB }
      ∈ (runMain1 inv env).1 ∧
    Event.newCommander
        { queue := QueueImpl.rabbitMQ, state := StateImpl.pgState,
          artifacts := ArtifactImpl.minio,
          codeQLDBStore := DBStoreImpl.hepc }
      ∈ (runMain2 inv env).1 ∧
    (∀ v, Event.newCommander v ∈ (runMain1 inv env).1 →
      v.state = StateImpl.localState env.config.startingID) ∧
    (∀ v, Event.newCommander v ∈ (runMain2 inv env).1 →
      v.state = StateImpl.pgState) := by
  have hdb : processDBPath env inv.mode inv.dbPath =
      Except.ok ([], inv.dbPath) :=
    processDBPath_not_standalone env inv.mode inv.dbPath (by rw [hm]; decide)
  rw [runMain1_eq inv env lvl [] inv.dbPath hh hl hdb,
      runMain2_eq inv env lvl [] inv.dbPath hh hl hdb, hm]
  simp only [runMode1, runMode2, h1, h2, h3, h4]
  refine ⟨by simp, by simp, ?_, ?_⟩ <;>
    · intro v hv
      simp only [List.mem_cons, List.mem_append, List.mem_singleton,
        List.not_mem_nil, or_false] at hv
      rcases hv with h | h <;> simp_all

/-- C3 witness: the amended theorem applied to a container invocation with
all initializers succeeding. -/
theorem c3_container_state_backends_witness :
    invContainer.help = false ∧
    parseLogLevel invContainer.logLevel = some LogLevel.info ∧
    invContainer.mode = "container" ∧ envAllOK.rabbitInitOK = true ∧
    Event.newCommander
        { queue := QueueImpl.rabbitMQ, state := StateImpl.localState 1,
          artifacts := ArtifactImpl.minio,
          codeQLDBStore := DBStoreImpl.minioDB }
      ∈ (runMain1 invContainer envAllOK).1 :=
  ⟨rfl, by decide, rfl, rfl,
    (c3_container_state_backends invContainer envAllOK LogLevel.info
      rfl (by decide) rfl rfl rfl rfl rfl).1⟩

/-- The events of a failed database-root block are exactly the no-path
warning and the executable-path error. -/
theorem processDBPath_error_events (env : Env) (mode p : String)
    (evs : List Event) (h : processDBPath env mode p = Except.error evs) :
    evs = [Event.warnNoDBPath, Event.logExecPathError] := by
  unfold processDBPath at h
  by_cases hc : mode = "standalone" ∧ p = ""
  · rw [if_pos hc] at h
    cases hx : env.execPath with
    | error e => rw [hx] at h; exact ((Except.error.injEq _ _).mp h).symm
    | ok q => rw [hx] at h; cases h
  · rw [if_neg hc] at h; cases h

/-- The second bootstrap's mode switch never creates a cancellable
context, in any mode. -/
theorem runMode2_no_cancel (env : Env) (m : String) :
    Event.createCancelContext ∉ (runMode2 env m).1 := by
  unfold runMode2
  split_ifs <;> simp

/-- The first bootstrap's mode switch creates a cancellable context only
in the standalone branch. -/
theorem runMode1_no_cancel (env : Env) (m root : String)
    (h : m ≠ "standalone") :
    Event.createCancelContext ∉ (runMode1 env m root).1 := by
  unfold runMode1
  split_ifs <;> simp_all

/-- The second bootstrap never creates a cancellable context: no run of
its `main`, whatever the flags and environment, contains one. -/
theorem runMain2_no_cancel (inv : Invocation) (env : Env) :
    Event.createCancelContext ∉ (runMain2 inv env).1 := by
  unfold runMain2
  by_cases hh : inv.help
  · simp [hh]
  · simp only [hh, if_false, Bool.false_eq_true]
    cases hl : parseLogLevel inv.logLevel with
    | none => simp
    | some lvl =>
        cases hdb : processDBPath env inv.mode inv.dbPath with
        | error evs =>
            rw [processDBPath_error_events env inv.mode inv.dbPath evs hdb]
            simp
        | ok pr =>
            rcases processDBPath_ok_events env inv.mode inv.dbPath pr.1 pr.2
              (by rw [hdb]) with he | ⟨r, he⟩ <;>
              simp [he, runMode2_no_cancel env inv.mode]

/-- The first bootstrap creates a cancellable context only when running
in standalone mode. -/
theorem runMain1_no_cancel_unless_standalone (inv : Invocation) (env : Env)
    (hm : inv.mode ≠ "standalone") :
    Event.createCancelContext ∉ (runMain1 inv env).1 := by
  unfold runMain1
  by_cases hh : inv.help
  · simp [hh]
  · simp only [hh, if_false, Bool.false_eq_true]
    cases hl : parseLogLevel inv.logLevel with
    | none => simp
    | some lvl =>
        cases hdb : processDBPath env inv.mode inv.dbPath with
        | error evs =>
            rw [processDBPath_error_events env inv.mode inv.dbPath evs hdb]
            simp
        | ok pr =>
            rcases processDBPath_ok_events env inv.mode inv.dbPath pr.1 pr.2
              (by rw [hdb]) with he | ⟨r, he⟩ <;>
              simp [he, runMode1_no_cancel env inv.mode pr.2 hm]

/-- C4 counterexample: the container branches of both bootstraps start a
server (create a commander) yet create no cancellation token at all —
their runs contain no cancellable-context creation — so "each mode branch
that starts workers or a server creates such a token and propagates it"
fails. -/
theorem c4_container_no_token_counterexample :
    (∃ v, Event.newCommander v ∈ (runMain1 invContainer envAllOK).1) ∧
    Event.createCancelContext ∉ (runMain1 invContainer envAllOK).1 ∧
    (∃ v, Event.newCommander v ∈ (runMain2 invContainer envAllOK).1) ∧
    Event.createCancelContext ∉ (runMain2 invContainer envAllOK).1 := by
  refine ⟨⟨{ queue := QueueImpl.rabbitMQ, state := StateImpl.localState 1,
             artifacts := ArtifactImpl.minio,
             codeQLDBStore := DBStoreImpl.minioDB }, by decide⟩,
    by decide,
    ⟨{ queue := QueueImpl.rabbitMQ, state := StateImpl.pgState,
       artifacts := ArtifactImpl.minio,
       codeQLDBStore := DBStoreImpl.hepc }, by decide⟩,
    by decide⟩

/-- C4 (amended): only the standalone branch of the first bootstrap
creates a cancellable context, and it propagates it to the worker
supervisor, which is started right after the context's creation; the
second bootstrap never creates one in any mode, and the first creates
none outside standalone — the container branches block directly on the
signal channel with no cancellation token. -/
theorem c4_cancel_token_only_standalone (inv : Invocation) (env : Env)
    (lvl : LogLevel) (evs : List Event) (root : String)
    (hh : inv.help = false) (hl : parseLogLevel inv.logLevel = some lvl)
    (hm : inv.mode = "standalone")
    (hdb : processDBPath env inv.mode inv.dbPath = Except.ok (evs, root)) :
    (∃ l1 l2, (runMain1 inv env).1 =
      l1 ++ Event.createCancelContext :: Event.startWorkers true 2 :: l2) ∧
    (∀ inv2 env2, Event.createCancelContext ∉ (runMain2 inv2 env2).1) ∧
    (∀ inv1 env1, inv1.mode ≠ "standalone" →
      Event.createCancelContext ∉ (runMain1 inv1 env1).1) := by
  refine ⟨?_, fun inv2 env2 => runMain2_no_cancel inv2 env2,
    fun inv1 env1 h => runMain1_no_cancel_unless_standalone inv1 env1 h⟩
  rw [runMain1_eq inv env lvl evs root hh hl hdb, hm]
  exact ⟨Event.setLogLevel lvl :: evs
      ++ [Event.loadConfig "mcconfig.toml", Event.printSummary,
          Event.installSignalHandlers,
          Event.newCommander
            { queue := QueueImpl.queueSingle 2,
              state := StateImpl.localState env.config.startingID,
              artifacts := ArtifactImpl.inMemory,
              codeQLDBStore := DBStoreImpl.localFilesystem root }],
    [Event.waitSignal, Event.cancelCalled, Event.wgWait], by simp [runMode1]⟩

/-- C4 witness: the amended theorem applied to a standalone invocation
with an explicit database path. -/
theorem c4_cancel_token_only_standalone_witness :
    invStandalone.help = false ∧
    parseLogLevel "info" = some LogLevel.info ∧
    processDBPath envAllOK "standalone" "/data/dbs" =
      Except.ok ([], "/data/dbs") ∧
    (∃ l1 l2, (runMain1 invStandalone envAllOK).1 =
      l1 ++ Event.createCancelContext :: Event.startWorkers true 2 :: l2) :=
  ⟨rfl, by decide, rfl,
    (c4_cancel_token_only_standalone invStandalone envAllOK LogLevel.info
      [] "/data/dbs" rfl (by decide) rfl rfl).1⟩

/-- C8: the standalone branch of the first bootstrap wires exactly one
implementation per abstraction into the commander — the in-process bounded
channel of size 2 as the queue, the in-memory state store, the in-memory
artifact store, and the local-filesystem database store rooted at the
processed `--dbpath` — and the commander is created before the worker pool
is started; no other commander is ever created in the run. -/
theorem c8_standalone_wiring (inv : Invocation) (env : Env) (lvl : LogLevel)
    (evs : List Event) (root : String)
    (hh : inv.help = false) (hl : parseLogLevel inv.logLevel = some lvl)
    (hm : inv.mode = "standalone")
    (hdb : processDBPath env inv.mode inv.dbPath = Except.ok (evs, root)) :
    (∃ l1 l2, (runMain1 inv env).1 =
      l1 ++ Event.newCommander
          { queue := QueueImpl.queueSingle 2,
            state := StateImpl.localState env.config.startingID,
            artifacts := ArtifactImpl.inMemory,
            codeQLDBStore := DBStoreImpl.localFilesystem root }
        :: Event.createCancelContext :: Event.startWorkers true 2 :: l2) ∧
    (∀ v, Event.newCommander v ∈ (runMain1 inv env).1 →
      v = { queue := QueueImpl.queueSingle 2,
            state := StateImpl.localState env.config.startingID,
            artifacts := ArtifactImpl.inMemory,
            codeQLDBStore := DBStoreImpl.localFilesystem root }) := by
  constructor
  · rw [runMain1_eq inv env lvl evs root hh hl hdb, hm]
    exact ⟨Event.setLogLevel lvl :: evs
        ++ [Event.loadConfig "mcconfig.toml", Event.printSummary,
            Event.installSignalHandlers],
      [Event.waitSignal, Event.cancelCalled, Event.wgWait],
      by simp [runMode1]⟩
  · intro v hv
    rw [runMain1_eq inv env lvl evs root hh hl hdb, hm] at hv
    rcases processDBPath_ok_events env inv.mode inv.dbPath evs root hdb with
      he | ⟨r, he⟩ <;> subst he <;> simp [runMode1] at hv <;>
      (cases v; simp_all)

/-- C8 witness: the theorem applied to a standalone invocation with an
explicit database path. -/
theorem c8_standalone_wiring_witness :
    invStandalone.help = false ∧
    parseLogLevel invStandalone.logLevel = some LogLevel.info ∧
    invStandalone.mode = "standalone" ∧
    (∃ l1 l2, (runMain1 invStandalone envAllOK).1 =
      l1 ++ Event.newCommander
          { queue := QueueImpl.queueSingle 2,
            state := StateImpl.localState 1,
            artifacts := ArtifactImpl.inMemory,
            codeQLDBStore := DBStoreImpl.localFilesystem "/data/dbs" }
        :: Event.createCancelContext :: Event.startWorkers true 2 :: l2) :=
  ⟨rfl, by decide, rfl,
    (c8_standalone_wiring invStandalone envAllOK LogLevel.info []
      "/data/dbs" rfl (by decide) rfl rfl).1⟩

/-- C10: in standalone mode with an empty `--dbpath`, the first bootstrap
exits with status 1 exactly when the executable path cannot be resolved,
and otherwise derives the default database root — the executable's
directory concatenated with "/codeql/dbs/" — logs it, hands it to the
local-filesystem database store, and completes normally; in non-standalone
modes an empty `--dbpath` passes through the database-root block
unchanged. -/
theorem c10_dbpath_default (inv : Invocation) (env : Env) (lvl : LogLevel)
    (hh : inv.help = false) (hl : parseLogLevel inv.logLevel = some lvl)
    (hdb : inv.dbPath = "") :
    (inv.mode = "standalone" →
      (∀ e, env.execPath = Except.error e →
        runMain1 inv env =
          ([Event.setLogLevel lvl, Event.warnNoDBPath,
            Event.logExecPathError], Outcome.exitWith 1)) ∧
      (∀ p, env.execPath = Except.ok p →
        Event.logDefaultDBPath (env.dir p ++ "/codeql/dbs/")
            ∈ (runMain1 inv env).1 ∧
        Event.newCommander
            { queue := QueueImpl.queueSingle 2,
              state := StateImpl.localState env.config.startingID,
              artifacts := ArtifactImpl.inMemory,
              codeQLDBStore :=
                DBStoreImpl.localFilesystem (env.dir p ++ "/codeql/dbs/") }
          ∈ (runMain1 inv env).1 ∧
        (runMain1 inv env).2 = Outcome.shutdownComplete)) ∧
    (inv.mode ≠ "standalone" →
      processDBPath env inv.mode inv.dbPath = Except.ok ([], inv.dbPath)) := by
  refine ⟨fun hm => ⟨fun e hx => ?_, fun p hx => ?_⟩,
    fun hm => processDBPath_not_standalone env inv.mode inv.dbPath hm⟩
  · have hpd : processDBPath env inv.mode inv.dbPath =
        Except.error [Event.warnNoDBPath, Event.logExecPathError] := by
      simp [processDBPath, hm, hdb, hx]
    simp [runMain1, hh, hl, hpd]
  · have hpd : processDBPath env inv.mode inv.dbPath =
        Except.ok ([Event.warnNoDBPath,
          Event.logDefaultDBPath (env.dir p ++ "/codeql/dbs/")],
          env.dir p ++ "/codeql/dbs/") := by
      simp [processDBPath, hm, hdb, hx]
    rw [runMain1_eq inv env lvl _ _ hh hl hpd, hm]
    refine ⟨by simp, by simp [runMode1], by simp [runMode1]⟩

/-- C10 witness: the theorem applied to a standalone invocation with an
empty database path in an environment whose executable path resolves. -/
theorem c10_dbpath_default_witness :
    invStandaloneNoDB.help = false ∧
    parseLogLevel invStandaloneNoDB.logLevel = some LogLevel.info ∧
    invStandaloneNoDB.dbPath = "" ∧
    envAllOK.execPath = Except.ok "/usr/local/bin/mrvaserver" ∧
    (runMain1 invStandaloneNoDB envAllOK).2 = Outcome.shutdownComplete :=
  ⟨rfl, by decide, rfl, rfl,
    (((c10_dbpath_default invStandaloneNoDB envAllOK LogLevel.info
      rfl (by decide) rfl).1 rfl).2 "/usr/local/bin/mrvaserver" rfl).2.2⟩

/-- The shutdown invariant: once the main goroutine is past `cancel()`
(blocked in `wg.Wait()` or done), cancellation has been triggered, and the
done phase is reached only with zero running workers. -/
def shutdownInv (s : AgentState) : Prop :=
  (s.phase = MainPhase.waitingWG ∨ s.phase = MainPhase.done →
    s.cancelled = true) ∧
  (s.phase = MainPhase.done → s.running = 0)

/-- Each step of the standalone shutdown preserves the invariant. -/
theorem shutdownInv_step (s t : AgentState) (hst : AgentStep s t)
    (hs : shutdownInv s) : shutdownInv t := by
  cases hst with
  | recvSignal h =>
      refine ⟨fun hp => ?_, fun hp => ?_⟩ <;> simp_all
  | callCancel h =>
      refine ⟨fun _ => rfl, fun hp => ?_⟩
      simp at hp
  | workerExit h =>
      refine ⟨fun hp => hs.1 hp, fun hp => ?_⟩
      have := hs.2 hp
      omega
  | wgWaitReturns h h0 =>
      exact ⟨fun _ => hs.1 (Or.inl h), fun _ => h0⟩

/-- Every state reachable from the post-start standalone state satisfies
the shutdown invariant. -/
theorem shutdownInv_reachable (n : Nat) (s : AgentState)
    (h : Relation.ReflTransGen AgentStep (agentInit n) s) : shutdownInv s := by
  induction h with
  | refl =>
      exact ⟨fun hp => by simp [agentInit] at hp,
        fun hp => by simp [agentInit] at hp⟩
  | tail _ hstep ih => exact shutdownInv_step _ _ hstep ih

/-- C2: in standalone mode, from the state right after the workers are
started (any number of running units, not yet cancelled, blocked on the
signal channel), every execution that reaches the shutdown-complete phase
has triggered cancellation and has zero worker units still running — the
main goroutine blocks on the wait group, so no worker unit is abandoned
mid-execution at process exit. -/
theorem c2_standalone_shutdown_drains (n : Nat) (s : AgentState)
    (h : Relation.ReflTransGen AgentStep (agentInit n) s)
    (hd : s.phase = MainPhase.done) :
    s.running = 0 ∧ s.cancelled = true := by
  have hinv : shutdownInv s := shutdownInv_reachable n s h
  exact ⟨hinv.2 hd, hinv.1 (Or.inr hd)⟩

/-- C2 witness: a complete execution with one worker — signal, cancel,
worker exit, wait-group return — reaches the done phase, and the theorem
yields that no worker is left running and cancellation was triggered. -/
theorem c2_standalone_shutdown_drains_witness :
    Relation.ReflTransGen AgentStep (agentInit 1)
      { phase := MainPhase.done, cancelled := true, running := 0 } ∧
    ({ phase := MainPhase.done, cancelled := true,
       running := 0 } : AgentState).running = 0 ∧
    ({ phase := MainPhase.done, cancelled := true,
       running := 0 } : AgentState).cancelled = true := by
  have hchain : Relation.ReflTransGen AgentStep (agentInit 1)
      { phase := MainPhase.done, cancelled := true, running := 0 } := by
    refine Relation.ReflTransGen.head
      (AgentStep.recvSignal (agentInit 1) rfl) ?_
    refine Relation.ReflTransGen.head
      (AgentStep.callCancel
        { phase := MainPhase.signalled, cancelled := false, running := 1 }
        rfl) ?_
    refine Relation.ReflTransGen.head
      (AgentStep.workerExit
        { phase := MainPhase.waitingWG, cancelled := true, running := 1 }
        (by decide)) ?_
    exact Relation.ReflTransGen.single
      (AgentStep.wgWaitReturns
        { phase := MainPhase.waitingWG, cancelled := true, running := 0 }
        rfl rfl)
  exact ⟨hchain, c2_standalone_shutdown_drains 1 _ hchain rfl⟩

/-- After a successful `CompleteWorkItem(id, r)`, the store records the
item as Succeeded with result `r`. -/
theorem complete_ok_key (st st' : StoreMap) (id : Nat) (r : String)
    (h : CompleteWorkItem st id r = Except.ok st') :
    st' id = some (WIStatus.succeeded r) := by
  cases hx : st id with
  | none => simp [CompleteWorkItem, hx] at h
  | some s =>
      by_cases he : s = WIStatus.succeeded r
      · have hst : st = st' := by
          simpa [CompleteWorkItem, hx, he] using h
        rw [← hst, hx, he]
      · by_cases ht : s.isTerminal
        · simp [CompleteWorkItem, hx, he, ht] at h
        · have hst' :
              (fun j => if j = id then some (WIStatus.succeeded r) else st j)
                = st' := by
            simpa [CompleteWorkItem, hx, he, ht] using h
          rw [← hst']; simp

/-- C5: completion is idempotent — after `CompleteWorkItem(id, r)`
succeeds with store `st'`, calling it again with the same result `r`
returns `st'` itself unchanged (a no-op, not an error), while calling it
with a differing result is rejected as Conflict (and, returning an error,
leaves the stored state unchanged). -/
theorem c5_complete_idempotent_conflict (st st' : StoreMap) (id : Nat)
    (r r' : String) (h : CompleteWorkItem st id r = Except.ok st') :
    CompleteWorkItem st' id r = Except.ok st' ∧
    (r' ≠ r → CompleteWorkItem st' id r' = Except.error StoreError.conflict) := by
  have hkey : st' id = some (WIStatus.succeeded r) :=
    complete_ok_key st st' id r h
  constructor
  · simp [CompleteWorkItem, hkey]
  · intro hne
    simp [CompleteWorkItem, hkey, WIStatus.isTerminal]
    exact fun hc => hne hc.symm

/-- The store before the witness completion: item 0 still Enqueued. -/
def storeBefore : StoreMap :=
  fun j => if j = 0 then some WIStatus.enqueued else none

/-- The store after completing item 0 with result key "artifact-key". -/
def storeAfter : StoreMap :=
  fun j =>
    if j = 0 then some (WIStatus.succeeded "artifact-key") else storeBefore j

/-- C5 witness: completing item 0 of a one-item store, re-completing with
the equal result is the identity, and a differing result is a Conflict. -/
theorem c5_complete_idempotent_conflict_witness :
    CompleteWorkItem storeBefore 0 "artifact-key" = Except.ok storeAfter ∧
    ("other-key" ≠ "artifact-key") ∧
    CompleteWorkItem storeAfter 0 "artifact-key" = Except.ok storeAfter ∧
    CompleteWorkItem storeAfter 0 "other-key" =
      Except.error StoreError.conflict :=
  ⟨rfl, by decide,
    (c5_complete_idempotent_conflict storeBefore storeAfter 0
      "artifact-key" "other-key" rfl).1,
    (c5_complete_idempotent_conflict storeBefore storeAfter 0
      "artifact-key" "other-key" rfl).2 (by decide)⟩

/-- A succeeded item is terminal. -/
theorem isSucceeded_isTerminal (s : WIStatus) (h : s.isSucceeded = true) :
    s.isTerminal = true := by
  cases s <;> simp_all [WIStatus.isSucceeded, WIStatus.isTerminal]

/-- A failed item is terminal. -/
theorem isFailed_isTerminal (s : WIStatus) (h : s.isFailed = true) :
    s.isTerminal = true := by
  cases s <;> simp_all [WIStatus.isFailed, WIStatus.isTerminal]

/-- A terminal item has started. -/
theorem isTerminal_started (s : WIStatus) (h : s.isTerminal = true) :
    s.started = true := by
  cases s <;> simp_all [WIStatus.started, WIStatus.isTerminal]

/-- No item is both succeeded and failed. -/
theorem isSucceeded_not_isFailed (s : WIStatus) (h : s.isSucceeded = true) :
    s.isFailed = false := by
  cases s <;> simp_all [WIStatus.isSucceeded, WIStatus.isFailed]

/-- C6: the derived Job status is a pure function of the WorkItem states,
with the spec's cases read in priority order: Submitted when no item has
started; Running when at least one item is non-terminal and at least one
has started; Completed when all items Succeeded; PartiallyFailed when all
items are terminal with at least one Failed and at least one Succeeded;
Failed when all items Failed — and on the concrete jobs,
{Succeeded, Succeeded} is Completed, {Succeeded, Failed} is
PartiallyFailed, {Failed, Failed} is Failed, and {Enqueued, Succeeded} is
Running. -/
theorem c6_job_status_derivation :
    (∀ items : List WIStatus,
      (items.all fun s => ! s.started) = true →
      jobStatus items = JobStatus.submitted) ∧
    (∀ items : List WIStatus,
      (items.any fun s => ! s.isTerminal) = true →
      (items.any fun s => s.started) = true →
      jobStatus items = JobStatus.running) ∧
    (∀ items : List WIStatus, items ≠ [] →
      (items.all fun s => s.isSucceeded) = true →
      jobStatus items = JobStatus.completed) ∧
    (∀ items : List WIStatus,
      (items.all fun s => s.isTerminal) = true →
      (items.any fun s => s.isFailed) = true →
      (items.any fun s => s.isSucceeded) = true →
      jobStatus items = JobStatus.partiallyFailed) ∧
    (∀ items : List WIStatus, items ≠ [] →
      (items.all fun s => s.isFailed) = true →
      jobStatus items = JobStatus.failedAll) ∧
    jobStatus [WIStatus.succeeded "r1", WIStatus.succeeded "r2"] =
      JobStatus.completed ∧
    jobStatus [WIStatus.succeeded "r1", WIStatus.failed "e1"] =
      JobStatus.partiallyFailed ∧
    jobStatus [WIStatus.failed "e1", WIStatus.failed "e2"] =
      JobStatus.failedAll ∧
    jobStatus [WIStatus.enqueued, WIStatus.succeeded "r1"] =
      JobStatus.running := by
  refine ⟨?_, ?_, ?_, ?_, ?_, by decide, by decide, by decide, by decide⟩
  · intro items h
    simp [jobStatus, h]
  · intro items h1 h2
    obtain ⟨s, hs, hstart⟩ := List.any_eq_true.mp h2
    have hg1 : (items.all fun s => ! s.started) = false := by
      rw [List.all_eq_false]
      exact ⟨s, hs, by simp [hstart]⟩
    simp [jobStatus, hg1, h1]
  · intro items hne h
    obtain ⟨x, xs, rfl⟩ := List.exists_cons_of_ne_nil hne
    have hx : x.isSucceeded = true := (List.all_eq_true.mp h) x (by simp)
    have hg1 : ((x :: xs).all fun s => ! s.started) = false := by
      rw [List.all_eq_false]
      refine ⟨x, by simp, ?_⟩
      simp [isTerminal_started x (isSucceeded_isTerminal x hx)]
    have hg2 : ((x :: xs).any fun s => ! s.isTerminal) = false := by
      rw [List.any_eq_false]
      intro y hy
      simp [isSucceeded_isTerminal y ((List.all_eq_true.mp h) y hy)]
    simp [jobStatus, hg1, hg2, h]
  · intro items ht hf hs
    obtain ⟨sf, hsf, hsfF⟩ := List.any_eq_true.mp hf
    obtain ⟨ss, hss, hssS⟩ := List.any_eq_true.mp hs
    have hg1 : (items.all fun s => ! s.started) = false := by
      rw [List.all_eq_false]
      refine ⟨sf, hsf, ?_⟩
      simp [isTerminal_started sf (isFailed_isTerminal sf hsfF)]
    have hg2 : (items.any fun s => ! s.isTerminal) = false := by
      rw [List.any_eq_false]
      intro y hy
      simp [(List.all_eq_true.mp ht) y hy]
    have hg3 : (items.all fun s => s.isSucceeded) = false := by
      rw [List.all_eq_false]
      refine ⟨sf, hsf, ?_⟩
      cases sf <;> simp_all [WIStatus.isFailed, WIStatus.isSucceeded]
    have hg4 : (items.all fun s => s.isFailed) = false := by
      rw [List.all_eq_false]
      refine ⟨ss, hss, ?_⟩
      simp [isSucceeded_not_isFailed ss hssS]
    simp [jobStatus, hg1, hg2, hg3, hg4]
  · intro items hne h
    obtain ⟨x, xs, rfl⟩ := List.exists_cons_of_ne_nil hne
    have hx : x.isFailed = true := (List.all_eq_true.mp h) x (by simp)
    have hg1 : ((x :: xs).all fun s => ! s.started) = false := by
      rw [List.all_eq_false]
      refine ⟨x, by simp, ?_⟩
      simp [isTerminal_started x (isFailed_isTerminal x hx)]
    have hg2 : ((x :: xs).any fun s => ! s.isTerminal) = false := by
      rw [List.any_eq_false]
      intro y hy
      simp [isFailed_isTerminal y ((List.all_eq_true.mp h) y hy)]
    have hg3 : ((x :: xs).all fun s => s.isSucceeded) = false := by
      rw [List.all_eq_false]
      refine ⟨x, by simp, ?_⟩
      cases x <;> simp_all [WIStatus.isFailed, WIStatus.isSucceeded]
    simp [jobStatus, hg1, hg2, hg3, h]

/-- C6 witness: the Submitted and Completed clauses applied to concrete
jobs. -/
theorem c6_job_status_derivation_witness :
    (([WIStatus.enqueued, WIStatus.enqueued].all
        fun s => ! s.started) = true) ∧
    jobStatus [WIStatus.enqueued, WIStatus.enqueued] =
      JobStatus.submitted ∧
    ([WIStatus.succeeded "r"] ≠ ([] : List WIStatus)) ∧
    jobStatus [WIStatus.succeeded "r"] = JobStatus.completed :=
  ⟨by decide,
    c6_job_status_derivation.1 [WIStatus.enqueued, WIStatus.enqueued]
      (by decide),
    by decide,
    c6_job_status_derivation.2.2.1 [WIStatus.succeeded "r"] (by decide)
      (by decide)⟩

end MrvaServer
